import Mathlib

/-!
  # Shallow embedding of the fidodo/server REST backend

  The repository is a single-file Express application (`src/index.js`)
  over a PostgreSQL schema (`src/db-setup.sql`).  Each route is one or two
  parameterized SQL statements guarded by a bearer-token check.  The
  embedding below translates, statement by statement:

  * the relational state (`DB`): the four tables of `db-setup.sql`
    together with the `SERIAL` counters, with the constraints the schema
    declares (primary key on `users.id`, `NOT NULL` on `thoughts.text` and
    `thoughts.section`, `UNIQUE(user_id, name)` on `folders`, the foreign
    keys, and the `ON DELETE SET NULL` cascade from folders to thoughts);
  * each SQL statement the handlers issue, as a function on `DB` that
    returns the `RETURNING *` rows and the successor state, or the store
    error the statement raises;
  * the eight route handlers of `index.js`, including their JavaScript
    truthiness checks (`!id`, `!name`, `folder || null`, `email || null`)
    — a JSON field is modelled three-valued (`undef`/`null`/`val`)
    because `!x` and SQL parameter binding treat them differently;
  * the authentication middleware `authenticateUser` and the express
    routing table, so that whole-request claims (authorization, route
    paths) are statable.
-/

namespace ThoughtsServer

/-! ## JSON field values

JavaScript distinguishes an absent property (`undefined`), an explicit
`null`, and a value.  `!x` is true on the first two and on `0` / `""`;
the `pg` driver binds both `undefined` and `null` as SQL `NULL`. -/

/-- A JSON body field as the handlers see it after destructuring. -/
inductive JField (α : Type) where
  | undef : JField α
  | null : JField α
  | val : α → JField α
deriving Repr, DecidableEq

/-- The SQL parameter a field binds to: `undefined` and `null` both bind
as SQL `NULL`. -/
def JField.toSql {α : Type} : JField α → Option α
  | .val v => some v
  | _ => none

/-- JavaScript truthiness of a numeric field: `!x` is true on `undefined`,
`null` and `0`. -/
def JField.truthyNat : JField Nat → Bool
  | .val n => n != 0
  | _ => false

/-- JavaScript truthiness of a string field: `!x` is true on `undefined`,
`null` and `""`. -/
def JField.truthyStr : JField String → Bool
  | .val s => s != ""
  | _ => false

/-- The union of the JSON body fields the eight handlers destructure
(`id`, `text`, `section`, `folder`, `name`); `sect` embeds the `section`
column (a Lean keyword). -/
structure Body where
  id : JField Nat
  text : JField String
  sect : JField String
  folder : JField Nat
  name : JField String
deriving Repr, DecidableEq

/-! ## The relational state (`db-setup.sql`) -/

/-- A row of `users` (id, username, email, password_hash, created_at). -/
structure UserRow where
  id : String
  username : String
  email : Option String
  passwordHash : Option String
  createdAt : String
deriving Repr, DecidableEq

/-- A row of `folders` (id SERIAL, user_id, name, timestamp). -/
structure FolderRow where
  id : Nat
  userId : String
  name : String
  timestamp : String
deriving Repr, DecidableEq

/-- A row of `thoughts` (id SERIAL, user_id, text, section, folder,
timestamp); `sect` embeds the `section` column. -/
structure ThoughtRow where
  id : Nat
  userId : String
  text : String
  sect : String
  folder : Option Nat
  timestamp : String
deriving Repr, DecidableEq

/-- A row of `thought_updates` (id SERIAL, thought_id, text, timestamp);
present in the schema, never written by any handler. -/
structure ThoughtUpdateRow where
  id : Nat
  thoughtId : Nat
  text : String
  timestamp : String
deriving Repr, DecidableEq

/-- The database: the four tables plus the `SERIAL` counters for the two
tables the handlers insert into. -/
structure DB where
  users : List UserRow
  folders : List FolderRow
  thoughts : List ThoughtRow
  thoughtUpdates : List ThoughtUpdateRow
  nextFolderId : Nat
  nextThoughtId : Nat
deriving Repr, DecidableEq

/-- The freshly created database: empty tables, `SERIAL` counters at 1. -/
def DB.empty : DB := ⟨[], [], [], [], 1, 1⟩

/-- Whether a `users` row with the given primary key exists. -/
def DB.userExists (db : DB) (uid : String) : Bool :=
  db.users.any (fun u => u.id == uid)

/-- Whether a `folders` row with the given primary key exists (the
target test of the `thoughts.folder` foreign key). -/
def DB.folderIdExists (db : DB) (fid : Nat) : Bool :=
  db.folders.any (fun f => f.id == fid)

/-- The errors a statement can raise under the constraints of
`db-setup.sql`. -/
inductive StoreError where
  | notNullViolation : StoreError
  | uniqueViolation : StoreError
  | fkViolation : StoreError
  | pkViolation : StoreError
deriving Repr, DecidableEq

/-! ## The SQL statements of `index.js` -/

/-- `SELECT * FROM thoughts WHERE user_id = $1`. -/
def selectThoughtsByUser (db : DB) (uid : String) : List ThoughtRow :=
  db.thoughts.filter (fun t => t.userId == uid)

/-- `SELECT * FROM users WHERE id = $1`. -/
def selectUsersById (db : DB) (uid : String) : List UserRow :=
  db.users.filter (fun u => u.id == uid)

/-- `SELECT * FROM folders WHERE user_id = $1`. -/
def selectFoldersByUser (db : DB) (uid : String) : List FolderRow :=
  db.folders.filter (fun f => f.userId == uid)

/-- `INSERT INTO users (id, username, email, password_hash, created_at)
VALUES ($1,$2,$3,$4,$5)`: fails on a duplicate primary key. -/
def insertUser (db : DB) (uid username : String) (email passwordHash : Option String)
    (createdAt : String) : Except StoreError DB :=
  if db.users.any (fun u => u.id == uid) then .error .pkViolation
  else .ok { db with users := db.users ++ [⟨uid, username, email, passwordHash, createdAt⟩] }

/-- `INSERT INTO thoughts (user_id, text, section, folder, timestamp)
VALUES ($1,$2,$3,$4,$5) RETURNING *`: `NOT NULL` on text and section,
foreign keys on user_id and folder. -/
def insertThought (db : DB) (uid : String) (text sect : Option String)
    (folder : Option Nat) (ts : String) : Except StoreError (ThoughtRow × DB) :=
  match text, sect with
  | some t, some s =>
    if !(db.userExists uid) then .error .fkViolation
    else
      match folder with
      | some f =>
        if !(db.folderIdExists f) then .error .fkViolation
        else
          let row : ThoughtRow := ⟨db.nextThoughtId, uid, t, s, some f, ts⟩
          .ok (row, { db with thoughts := db.thoughts ++ [row],
                              nextThoughtId := db.nextThoughtId + 1 })
      | none =>
        let row : ThoughtRow := ⟨db.nextThoughtId, uid, t, s, none, ts⟩
        .ok (row, { db with thoughts := db.thoughts ++ [row],
                            nextThoughtId := db.nextThoughtId + 1 })
  | _, _ => .error .notNullViolation

/-- The `WHERE id = $… AND user_id = $…` predicate on thoughts. -/
def thoughtMatches (id : Nat) (uid : String) (r : ThoughtRow) : Bool :=
  r.id == id && r.userId == uid

/-- The `WHERE id = $… AND user_id = $…` predicate on folders. -/
def folderMatches (id : Nat) (uid : String) (f : FolderRow) : Bool :=
  f.id == id && f.userId == uid

/-- The row produced by `SET text = COALESCE($1, text), section =
COALESCE($2, section), folder = COALESCE($3, folder)`. -/
def coalesceThought (text sect : Option String) (folder : Option Nat)
    (r : ThoughtRow) : ThoughtRow :=
  { r with
    text := text.getD r.text
    sect := sect.getD r.sect
    folder := match folder with | some f => some f | none => r.folder }

/-- Whether the coalescing update would set `folder` to a value that
changes the column and references no folder row (PostgreSQL checks the
foreign key only on rows whose referencing column actually changes). -/
def fkBadThoughtUpdate (db : DB) (folder : Option Nat) (id : Nat) (uid : String) : Bool :=
  match folder with
  | some f =>
    !(db.folderIdExists f) && db.thoughts.any (fun r => thoughtMatches id uid r && r.folder != some f)
  | none => false

/-- `UPDATE thoughts SET text = COALESCE($1, text), section = COALESCE($2,
section), folder = COALESCE($3, folder) WHERE id = $4 AND user_id = $5
RETURNING *`. -/
def updateThought (db : DB) (text sect : Option String) (folder : Option Nat)
    (id : Nat) (uid : String) : Except StoreError (List ThoughtRow × DB) :=
  if fkBadThoughtUpdate db folder id uid then .error .fkViolation
  else
    let rows := (db.thoughts.filter (thoughtMatches id uid)).map (coalesceThought text sect folder)
    .ok (rows, { db with thoughts := db.thoughts.map (fun r =>
      if thoughtMatches id uid r then coalesceThought text sect folder r else r) })

/-- `DELETE FROM thoughts WHERE id = $1 AND user_id = $2 RETURNING *`,
with the `ON DELETE CASCADE` from `thought_updates`. -/
def deleteThought (db : DB) (id : Nat) (uid : String) : List ThoughtRow × DB :=
  let rows := db.thoughts.filter (thoughtMatches id uid)
  (rows, { db with
    thoughts := db.thoughts.filter (fun r => !(thoughtMatches id uid r))
    thoughtUpdates := db.thoughtUpdates.filter (fun u => !(rows.any (fun r => r.id == u.thoughtId))) })

/-- `INSERT INTO folders (user_id, name, timestamp) VALUES ($1,$2,$3)
RETURNING *`: foreign key on user_id, `UNIQUE(user_id, name)`. -/
def insertFolder (db : DB) (uid name ts : String) : Except StoreError (FolderRow × DB) :=
  if !(db.userExists uid) then .error .fkViolation
  else if db.folders.any (fun f => f.userId == uid && f.name == name) then .error .uniqueViolation
  else
    let row : FolderRow := ⟨db.nextFolderId, uid, name, ts⟩
    .ok (row, { db with folders := db.folders ++ [row], nextFolderId := db.nextFolderId + 1 })

/-- `UPDATE folders SET name = $1 WHERE id = $2 AND user_id = $3
RETURNING *`: renaming onto another folder of the same owner violates
`UNIQUE(user_id, name)`. -/
def updateFolder (db : DB) (name : String) (id : Nat) (uid : String) :
    Except StoreError (List FolderRow × DB) :=
  let matched := db.folders.filter (folderMatches id uid)
  if !matched.isEmpty && db.folders.any (fun f => f.userId == uid && f.name == name && f.id != id) then
    .error .uniqueViolation
  else
    .ok (matched.map (fun f => { f with name := name }),
         { db with folders := db.folders.map (fun f =>
             if folderMatches id uid f then { f with name := name } else f) })

/-- `UPDATE thoughts SET folder = NULL WHERE folder = $1 AND user_id = $2`
(the detach step of folder deletion); returns the affected row count. -/
def detachThoughts (db : DB) (fid : Nat) (uid : String) : Nat × DB :=
  ((db.thoughts.filter (fun t => t.folder == some fid && t.userId == uid)).length,
   { db with thoughts := db.thoughts.map (fun t =>
       if t.folder == some fid && t.userId == uid then { t with folder := none } else t) })

/-- `DELETE FROM folders WHERE id = $1 AND user_id = $2 RETURNING *`, with
the schema's `ON DELETE SET NULL` cascade onto `thoughts.folder`. -/
def deleteFolder (db : DB) (id : Nat) (uid : String) : List FolderRow × DB :=
  let rows := db.folders.filter (folderMatches id uid)
  (rows, { db with
    folders := db.folders.filter (fun f => !(folderMatches id uid f))
    thoughts :=
      if rows.isEmpty then db.thoughts
      else db.thoughts.map (fun t =>
        if t.folder == some id then { t with folder := none } else t) })

/-! ## Responses and handlers -/

/-- The JSON response bodies `index.js` produces. -/
inductive Resp where
  | errorMsg : String → Resp
  | thoughtsList : List ThoughtRow → Resp
  | thoughtOne : ThoughtRow → Resp
  | foldersList : List FolderRow → Resp
  | folderOne : FolderRow → Resp
  | deletedTrue : Resp
deriving Repr, DecidableEq

/-- A handler outcome: HTTP status, response body, successor database. -/
abbrev HResult := Nat × Resp × DB

/-- `const userEmail = req.user.email || null`. -/
def userEmailOf (email : Option String) : Option String :=
  match email with
  | some e => if e == "" then none else some e
  | none => none

/-- `userEmail.split('@')[0]`: the part of the string before its first
`@` (the whole string when none occurs). -/
def emailLocalPart (e : String) : String :=
  String.mk (e.data.takeWhile (fun c => c != '@'))

/-- `const userName = userEmail ? userEmail.split('@')[0] : 'anonymous'`. -/
def userNameOf (email : Option String) : String :=
  match userEmailOf email with
  | some e => emailLocalPart e
  | none => "anonymous"

/-- `GET /api/thoughts`. -/
def thoughtsGetHandler (db : DB) (uid : String) : HResult :=
  (200, .thoughtsList (selectThoughtsByUser db uid), db)

/-- `POST /api/thoughts`: lazily provision the user row, then insert the
thought; any store failure maps to a 500 with the state reached so far. -/
def thoughtsPostHandler (db : DB) (uid : String) (email : Option String)
    (body : Body) (nowUser nowThought : String) : HResult :=
  let step1 : Except StoreError DB :=
    if (selectUsersById db uid).length == 0 then
      insertUser db uid (userNameOf email) (userEmailOf email) none nowUser
    else .ok db
  match step1 with
  | .error _ => (500, .errorMsg "Internal Server Error", db)
  | .ok db1 =>
    let folderParam : Option Nat := if body.folder.truthyNat then body.folder.toSql else none
    match insertThought db1 uid body.text.toSql body.sect.toSql folderParam nowThought with
    | .error _ => (500, .errorMsg "Internal Server Error", db1)
    | .ok (row, db2) => (201, .thoughtOne row, db2)

/-- `PUT /api/thoughts`. -/
def thoughtsPutHandler (db : DB) (uid : String) (body : Body) : HResult :=
  match body.id with
  | .val i =>
    if i == 0 then (400, .errorMsg "Missing thought ID", db)
    else
      match updateThought db body.text.toSql body.sect.toSql body.folder.toSql i uid with
      | .error _ => (500, .errorMsg "Internal Server Error", db)
      | .ok (rows, db2) =>
        match rows with
        | [] => (404, .errorMsg "Thought not found or unauthorized", db2)
        | r :: _ => (200, .thoughtOne r, db2)
  | _ => (400, .errorMsg "Missing thought ID", db)

/-- `DELETE /api/thoughts`. -/
def thoughtsDeleteHandler (db : DB) (uid : String) (body : Body) : HResult :=
  match body.id with
  | .val i =>
    if i == 0 then (400, .errorMsg "Missing thought ID", db)
    else
      let res := deleteThought db i uid
      match res.1 with
      | [] => (404, .errorMsg "Thought not found or unauthorized", res.2)
      | _ :: _ => (200, .deletedTrue, res.2)
  | _ => (400, .errorMsg "Missing thought ID", db)

/-- `GET /api/folders`. -/
def foldersGetHandler (db : DB) (uid : String) : HResult :=
  (200, .foldersList (selectFoldersByUser db uid), db)

/-- `POST /api/folders`. -/
def foldersPostHandler (db : DB) (uid : String) (body : Body) (now : String) : HResult :=
  if !body.name.truthyStr then (400, .errorMsg "Folder name is required", db)
  else
    match body.name with
    | .val n =>
      match insertFolder db uid n now with
      | .error _ => (500, .errorMsg "Internal Server Error", db)
      | .ok (row, db2) => (201, .folderOne row, db2)
    | _ => (400, .errorMsg "Folder name is required", db)

/-- `PUT /api/folders`. -/
def foldersPutHandler (db : DB) (uid : String) (body : Body) : HResult :=
  if !body.id.truthyNat || !body.name.truthyStr then
    (400, .errorMsg "Folder ID and name are required", db)
  else
    match body.id, body.name with
    | .val i, .val n =>
      match updateFolder db n i uid with
      | .error _ => (500, .errorMsg "Internal Server Error", db)
      | .ok (rows, db2) =>
        match rows with
        | [] => (404, .errorMsg "Folder not found or unauthorized", db2)
        | r :: _ => (200, .folderOne r, db2)
    | _, _ => (400, .errorMsg "Folder ID and name are required", db)

/-- `DELETE /api/folders`: detach, then delete the folder row. -/
def foldersDeleteHandler (db : DB) (uid : String) (body : Body) : HResult :=
  match body.id with
  | .val i =>
    if i == 0 then (400, .errorMsg "Folder ID is required", db)
    else
      let db1 := (detachThoughts db i uid).2
      let res := deleteFolder db1 i uid
      match res.1 with
      | [] => (404, .errorMsg "Folder not found or unauthorized", res.2)
      | _ :: _ => (200, .deletedTrue, res.2)
  | _ => (400, .errorMsg "Folder ID is required", db)

/-! ## Authentication middleware and routing -/

/-- The verified identity the Identity Verifier returns
(`decodedToken.uid`, `decodedToken.email`). -/
structure Identity where
  uid : String
  email : Option String
deriving Repr, DecidableEq

/-- `authHeader.split('Bearer ')[1]`. -/
def extractBearerToken (h : String) : String :=
  (h.splitOn "Bearer ").getD 1 ""

/-- The `authenticateUser` middleware: reject when the header is absent or
lacks the `Bearer ` marker (without consulting the verifier), otherwise
defer to the verifier.  `none` is the 401 path. -/
def authenticateUser (verify : String → Option Identity)
    (authHeader : Option String) : Option Identity :=
  match authHeader with
  | none => none
  | some h =>
    if h.startsWith "Bearer " then verify (extractBearerToken h)
    else none

/-- The eight registered routes. -/
inductive Route where
  | thoughtsGet | thoughtsPost | thoughtsPut | thoughtsDrop
  | foldersGet | foldersPost | foldersPut | foldersDrop
deriving Repr, DecidableEq

/-- The express routing table of `index.js`: which (HTTP method, path)
pairs reach a handler. -/
def matchRoute : String → String → Option Route
  | "GET", "/api/thoughts" => some .thoughtsGet
  | "POST", "/api/thoughts" => some .thoughtsPost
  | "PUT", "/api/thoughts" => some .thoughtsPut
  | "DELETE", "/api/thoughts" => some .thoughtsDrop
  | "GET", "/api/folders" => some .foldersGet
  | "POST", "/api/folders" => some .foldersPost
  | "PUT", "/api/folders" => some .foldersPut
  | "DELETE", "/api/folders" => some .foldersDrop
  | _, _ => none

/-- The (method, path) pairs registered in `index.js`, in registration
order. -/
def registeredRoutes : List (String × String) :=
  [("GET", "/api/thoughts"), ("POST", "/api/thoughts"),
   ("PUT", "/api/thoughts"), ("DELETE", "/api/thoughts"),
   ("GET", "/api/folders"), ("POST", "/api/folders"),
   ("PUT", "/api/folders"), ("DELETE", "/api/folders")]

/-- Dispatch an authenticated request to its handler. -/
def runRoute (r : Route) (db : DB) (ident : Identity) (body : Body)
    (now1 now2 : String) : HResult :=
  match r with
  | .thoughtsGet => thoughtsGetHandler db ident.uid
  | .thoughtsPost => thoughtsPostHandler db ident.uid ident.email body now1 now2
  | .thoughtsPut => thoughtsPutHandler db ident.uid body
  | .thoughtsDrop => thoughtsDeleteHandler db ident.uid body
  | .foldersGet => foldersGetHandler db ident.uid
  | .foldersPost => foldersPostHandler db ident.uid body now1
  | .foldersPut => foldersPutHandler db ident.uid body
  | .foldersDrop => foldersDeleteHandler db ident.uid body

/-- A whole request: express matches method and path (`none` when no
route is registered there), then `authenticateUser` runs before the
handler. -/
def handleRequest (verify : String → Option Identity) (db : DB)
    (method path : String) (authHeader : Option String) (body : Body)
    (now1 now2 : String) : Option HResult :=
  (matchRoute method path).map (fun r =>
    match authenticateUser verify authHeader with
    | none => (401, .errorMsg "Unauthorized", db)
    | some ident => runRoute r db ident body now1 now2)

/-! ## General list helpers -/

/-- A guarded rewrite whose guard holds nowhere leaves a list unchanged. -/
theorem map_ite_eq_self {α : Type} (p : α → Bool) (f : α → α) (l : List α)
    (h : ∀ a ∈ l, p a = false) :
    (l.map fun a => if p a then f a else a) = l := by
  induction l with
  | nil => rfl
  | cons x xs ih =>
    have hx := h x (by simp)
    simp [hx, ih fun a ha => h a (by simp [ha])]

/-- Two maps agreeing pointwise on a list agree on it. -/
theorem map_congr_fn {α β : Type} (f g : α → β) (l : List α)
    (h : ∀ a ∈ l, f a = g a) : l.map f = l.map g := by
  induction l with
  | nil => rfl
  | cons x xs ih =>
    simp [h x (by simp), ih fun a ha => h a (by simp [ha])]

/-- Filtering by a predicate that holds nowhere yields the empty list. -/
theorem filter_eq_nil_of_false {α : Type} (p : α → Bool) (l : List α)
    (h : ∀ a ∈ l, p a = false) : l.filter p = [] := by
  induction l with
  | nil => rfl
  | cons x xs ih =>
    have hx := h x (by simp)
    simp [List.filter_cons, hx, ih fun a ha => h a (by simp [ha])]

/-- Dropping by a predicate that holds nowhere keeps the whole list. -/
theorem filter_not_eq_self {α : Type} (p : α → Bool) (l : List α)
    (h : ∀ a ∈ l, p a = false) : (l.filter fun a => !(p a)) = l := by
  induction l with
  | nil => rfl
  | cons x xs ih =>
    have hx := h x (by simp)
    simp [List.filter_cons, hx, ih fun a ha => h a (by simp [ha])]

/-- A conjunction-shaped `any` fails when its first conjunct holds
nowhere. -/
theorem any_and_eq_false {α : Type} (p q : α → Bool) (l : List α)
    (h : ∀ a ∈ l, p a = false) : (l.any fun a => p a && q a) = false := by
  induction l with
  | nil => rfl
  | cons x xs ih =>
    have hx := h x (by simp)
    simp [hx, ih fun a ha => h a (by simp [ha])]

/-- A filter surviving some element is not the empty list. -/
theorem filter_ne_nil_of_any {α : Type} (p : α → Bool) (l : List α)
    (h : l.any p = true) : l.filter p ≠ [] := by
  intro hnil
  obtain ⟨a, ha, hpa⟩ := List.any_eq_true.mp h
  have hmem : a ∈ l.filter p := List.mem_filter.mpr ⟨ha, hpa⟩
  rw [hnil] at hmem
  exact absurd hmem (List.not_mem_nil a)

/-- Pairing a list with its image under a pointwise-related rewrite. -/
theorem forall₂_map_self {α : Type} (p : α → α → Prop) (g : α → α) (l : List α)
    (h : ∀ a ∈ l, p a (g a)) : List.Forall₂ p l (l.map g) := by
  induction l with
  | nil => exact List.Forall₂.nil
  | cons x xs ih =>
    exact List.Forall₂.cons (h x (by simp)) (ih fun a ha => h a (by simp [ha]))

/-- Pairing a list with itself under a reflexive-on-it relation. -/
theorem forall₂_refl_of {α : Type} (p : α → α → Prop) (l : List α)
    (h : ∀ a ∈ l, p a a) : List.Forall₂ p l l := by
  induction l with
  | nil => exact List.Forall₂.nil
  | cons x xs ih =>
    exact List.Forall₂.cons (h x (by simp)) (ih fun a ha => h a (by simp [ha]))

/-- The emptiness test the user-provisioning check performs
(`rows.length === 0`) agrees with user existence. -/
theorem select_users_beq_zero (db : DB) (uid : String) :
    ((selectUsersById db uid).length == 0) = !(db.userExists uid) := by
  show ((db.users.filter (fun u => u.id == uid)).length == 0)
    = !(db.users.any (fun u => u.id == uid))
  induction db.users with
  | nil => rfl
  | cons x xs ih =>
    by_cases hx : (x.id == uid) = true
    · simp [List.filter_cons, hx]
    · simp only [Bool.not_eq_true] at hx
      simp [List.filter_cons, hx, ih]

/-! ## Claim theorems -/

/-- C1: on any of the eight routes, a request whose authorization header
is absent, lacks the `Bearer ` marker, or carries a token the verifier
rejects, is answered 401 Unauthorized with the database untouched; and
when the marker is absent the outcome does not depend on the verifier at
all (it is never called). -/
theorem auth_failure_rejected_before_store
    (verify verify2 : String → Option Identity) (db : DB) (method path : String)
    (hdr : Option String) (body : Body) (now1 now2 : String)
    (hroute : (matchRoute method path).isSome = true)
    (hfail : hdr = none ∨ ∃ h, hdr = some h ∧
      (h.startsWith "Bearer " = false ∨ verify (extractBearerToken h) = none)) :
    handleRequest verify db method path hdr body now1 now2
      = some (401, Resp.errorMsg "Unauthorized", db)
    ∧ (∀ h, hdr = some h → h.startsWith "Bearer " = false →
        authenticateUser verify hdr = authenticateUser verify2 hdr) := by
  have hauth : authenticateUser verify hdr = none := by
    rcases hfail with rfl | ⟨h, rfl, hcase⟩
    · rfl
    · rcases hcase with hpre | hver
      · simp [authenticateUser, hpre]
      · simp [authenticateUser, hver]
  refine ⟨?_, ?_⟩
  · obtain ⟨r, hr⟩ := Option.isSome_iff_exists.mp hroute
    simp [handleRequest, hr, hauth]
  · intro h hh hpre
    subst hh
    simp [authenticateUser, hpre]

/-- C1 witness: a concrete headerless GET of the thoughts route is turned
away with 401 and an unchanged (empty) database. -/
theorem auth_failure_rejected_before_store_witness :
    handleRequest (fun _ => none) DB.empty "GET" "/api/thoughts" none
      ⟨.undef, .undef, .undef, .undef, .undef⟩ "T1" "T2"
      = some (401, Resp.errorMsg "Unauthorized", DB.empty) :=
  (auth_failure_rejected_before_store (fun _ => none) (fun _ => none) DB.empty
    "GET" "/api/thoughts" none ⟨.undef, .undef, .undef, .undef, .undef⟩ "T1" "T2"
    rfl (Or.inl rfl)).1

/-- C8 counterexample: no handler is registered at `GET /thoughts` (or
`GET /folders`): the operations live under the `/api/` prefix, so the
paths of the interface table are not where the code exposes them. -/
theorem routes_not_at_table_paths :
    matchRoute "GET" "/thoughts" = none ∧ matchRoute "GET" "/folders" = none :=
  ⟨rfl, rfl⟩

/-- C8 amended: the eight operations are exposed with the listed HTTP
methods, but at `/api/thoughts` and `/api/folders`; a request reaches a
handler exactly on those eight (method, path) pairs. -/
theorem routes_registered_under_api_prefix :
    (∀ method path : String,
      (matchRoute method path).isSome = registeredRoutes.contains (method, path))
    ∧ matchRoute "GET" "/api/thoughts" = some Route.thoughtsGet
    ∧ matchRoute "POST" "/api/thoughts" = some Route.thoughtsPost
    ∧ matchRoute "PUT" "/api/thoughts" = some Route.thoughtsPut
    ∧ matchRoute "DELETE" "/api/thoughts" = some Route.thoughtsDrop
    ∧ matchRoute "GET" "/api/folders" = some Route.foldersGet
    ∧ matchRoute "POST" "/api/folders" = some Route.foldersPost
    ∧ matchRoute "PUT" "/api/folders" = some Route.foldersPut
    ∧ matchRoute "DELETE" "/api/folders" = some Route.foldersDrop := by
  refine ⟨?_, rfl, rfl, rfl, rfl, rfl, rfl, rfl, rfl⟩
  intro method path
  unfold matchRoute
  split <;> simp_all [registeredRoutes, List.contains]

/-- A two-owner database used by concrete witnesses: user `A` owns
thought 1 and folder 1; `B` owns nothing. -/
def wDbA : DB :=
  { users := [⟨"A", "a", none, none, "T0"⟩]
    folders := [⟨1, "A", "work", "T0"⟩]
    thoughts := [⟨1, "A", "note", "todo", none, "T0"⟩]
    thoughtUpdates := []
    nextFolderId := 2
    nextThoughtId := 2 }

/-- A request body naming id 1 (and the name `x`), used by witnesses. -/
def wBodyId1 : Body := ⟨.val 1, .undef, .undef, .undef, .val "x"⟩

/-- With a nonzero id matching no (id, caller)-scoped thought row, the
update handler answers 404 and returns the database unchanged. -/
theorem thoughtsPut_of_no_match (db : DB) (uid : String) (i : Nat) (body : Body)
    (hid : body.id = JField.val i) (hi : (i == 0) = false)
    (hth : ∀ r ∈ db.thoughts, thoughtMatches i uid r = false) :
    thoughtsPutHandler db uid body
      = (404, Resp.errorMsg "Thought not found or unauthorized", db) := by
  have hfilter : db.thoughts.filter (thoughtMatches i uid) = [] :=
    filter_eq_nil_of_false _ _ hth
  have hmap : (db.thoughts.map fun r =>
      if thoughtMatches i uid r
      then coalesceThought body.text.toSql body.sect.toSql body.folder.toSql r else r)
      = db.thoughts := map_ite_eq_self _ _ _ hth
  have hfk : fkBadThoughtUpdate db body.folder.toSql i uid = false := by
    unfold fkBadThoughtUpdate
    cases body.folder.toSql with
    | none => rfl
    | some f =>
      show (!(db.folderIdExists f)
        && db.thoughts.any fun r => thoughtMatches i uid r && r.folder != some f) = false
      rw [any_and_eq_false _ _ _ hth, Bool.and_false]
  unfold thoughtsPutHandler
  rw [hid]
  simp only [hi, Bool.false_eq_true, if_false]
  unfold updateThought
  rw [hfk]
  simp only [Bool.false_eq_true, if_false, hfilter, List.map_nil, hmap]

/-- C2: a mutation naming an id with no row scoped to (id, caller) —
covering both a nonexistent id and an id owned by someone else with one
hypothesis — answers 404 with the same fixed body on every such database,
and the scoped table is untouched (for the thought operations and the
folder rename the whole database is untouched; for the folder delete the
folder and user tables are untouched). -/
theorem unmatched_mutation_not_found (db : DB) (uid : String) (i : Nat) (body : Body)
    (hid : body.id = JField.val i) (hi : (i == 0) = false) :
    (db.thoughts.all (fun r => !(thoughtMatches i uid r)) = true →
        thoughtsPutHandler db uid body
          = (404, Resp.errorMsg "Thought not found or unauthorized", db)
        ∧ thoughtsDeleteHandler db uid body
          = (404, Resp.errorMsg "Thought not found or unauthorized", db))
    ∧ (db.folders.all (fun f => !(folderMatches i uid f)) = true →
        (∀ n, body.name = JField.val n → (n == "") = false →
          foldersPutHandler db uid body
            = (404, Resp.errorMsg "Folder not found or unauthorized", db))
        ∧ (foldersDeleteHandler db uid body).1 = 404
        ∧ (foldersDeleteHandler db uid body).2.1
            = Resp.errorMsg "Folder not found or unauthorized"
        ∧ ((foldersDeleteHandler db uid body).2.2).folders = db.folders
        ∧ ((foldersDeleteHandler db uid body).2.2).users = db.users) := by
  constructor
  · intro hall
    have hth : ∀ r ∈ db.thoughts, thoughtMatches i uid r = false := by
      intro r hr
      have := List.all_eq_true.mp hall r hr
      simpa using this
    have hfilter : db.thoughts.filter (thoughtMatches i uid) = [] :=
      filter_eq_nil_of_false _ _ hth
    constructor
    · exact thoughtsPut_of_no_match db uid i body hid hi hth
    · unfold thoughtsDeleteHandler deleteThought
      rw [hid]
      simp only [hi, Bool.false_eq_true, if_false, hfilter]
      rw [filter_not_eq_self _ _ hth]
      simp
  · intro hall
    have hfo : ∀ f ∈ db.folders, folderMatches i uid f = false := by
      intro f hf
      have := List.all_eq_true.mp hall f hf
      simpa using this
    have hfilter : db.folders.filter (folderMatches i uid) = [] :=
      filter_eq_nil_of_false _ _ hfo
    have hmap : (db.folders.map fun f =>
        if folderMatches i uid f then { f with name := body.name.toSql.getD f.name } else f)
        = db.folders := map_ite_eq_self _ _ _ hfo
    refine ⟨?_, ?_⟩
    · intro n hn hne
      unfold foldersPutHandler
      rw [hid, hn]
      have hine : ¬ i = 0 := by
        intro h
        subst h
        simp at hi
      have hnne : ¬ n = "" := by
        intro h
        subst h
        simp at hne
      have htr : JField.truthyNat (JField.val i) = true := by
        simp [JField.truthyNat, hine]
      have hts : JField.truthyStr (JField.val n) = true := by
        simp [JField.truthyStr, hnne]
      simp only [htr, hts, Bool.not_true, Bool.false_or, Bool.or_self, Bool.false_eq_true, if_false]
      unfold updateFolder
      rw [hfilter]
      simp only [List.isEmpty_nil, Bool.not_true, Bool.false_and, Bool.false_eq_true, if_false,
        List.map_nil]
      rw [map_ite_eq_self _ _ _ hfo]
    · unfold foldersDeleteHandler deleteFolder
      rw [hid]
      have hfilter1 : ((detachThoughts db i uid).2).folders.filter (folderMatches i uid) = [] :=
        hfilter
      have hkeep : ((detachThoughts db i uid).2).folders.filter (fun f => !(folderMatches i uid f))
          = db.folders := filter_not_eq_self _ _ hfo
      simp only [hi, Bool.false_eq_true, if_false, hfilter1, hkeep]
      exact ⟨trivial, trivial, trivial, rfl⟩

/-- C2 witness: with `A` owning thought 1 and folder 1, caller `B` gets
404 from the thought update and the folder rename naming id 1, with the
database unchanged. -/
theorem unmatched_mutation_not_found_witness :
    thoughtsPutHandler wDbA "B" wBodyId1
      = (404, Resp.errorMsg "Thought not found or unauthorized", wDbA)
    ∧ foldersPutHandler wDbA "B" wBodyId1
      = (404, Resp.errorMsg "Folder not found or unauthorized", wDbA) := by
  have h := unmatched_mutation_not_found wDbA "B" 1 wBodyId1 rfl rfl
  exact ⟨(h.1 (by decide)).1, (h.2 (by decide)).1 "x" rfl rfl⟩

/-- Inserting a user under an unused id succeeds and appends the row. -/
theorem insertUser_of_not_exists (db : DB) (uid username : String)
    (email ph : Option String) (ts : String) (h : db.userExists uid = false) :
    insertUser db uid username email ph ts
      = .ok { db with users := db.users ++ [⟨uid, username, email, ph, ts⟩] } := by
  unfold insertUser
  unfold DB.userExists at h
  rw [h]
  simp

/-- A successful thought insert leaves users and folders alone, appends
exactly the returned row to thoughts, and stamps it with the caller. -/
theorem insertThought_ok_shape (db : DB) (uid : String) (text sect : Option String)
    (folder : Option Nat) (ts : String) (row : ThoughtRow) (db2 : DB)
    (h : insertThought db uid text sect folder ts = .ok (row, db2)) :
    db2.users = db.users ∧ db2.folders = db.folders
    ∧ db2.thoughts = db.thoughts ++ [row] ∧ row.userId = uid := by
  unfold insertThought at h
  split at h
  · split at h
    · simp at h
    · split at h
      · split at h
        · simp at h
        · simp only [Except.ok.injEq, Prod.mk.injEq] at h
          obtain ⟨hrow, hdb⟩ := h
          subst hrow
          subst hdb
          exact ⟨rfl, rfl, rfl, rfl⟩
      · simp only [Except.ok.injEq, Prod.mk.injEq] at h
        obtain ⟨hrow, hdb⟩ := h
        subst hrow
        subst hdb
        exact ⟨rfl, rfl, rfl, rfl⟩
  · simp at h

/-- C3: thought creation provisions the user row exactly when none exists
for the verified id (display name from the email local-part, else
`anonymous`), a user row is present afterwards in every case — so a
second creation by the same identity adds no user row — and a created
(201) outcome appends exactly one thought row, after the provisioning. -/
theorem thought_create_provisions_user_once (db : DB) (uid : String)
    (email : Option String) (body : Body) (now1 now2 : String) :
    ((thoughtsPostHandler db uid email body now1 now2).2.2).users
      = (if db.userExists uid
         then db.users
         else db.users ++ [⟨uid, userNameOf email, userEmailOf email, none, now1⟩])
    ∧ DB.userExists ((thoughtsPostHandler db uid email body now1 now2).2.2) uid = true
    ∧ ((thoughtsPostHandler db uid email body now1 now2).1 = 201 →
        ∃ t : ThoughtRow, t.userId = uid ∧
          ((thoughtsPostHandler db uid email body now1 now2).2.2).thoughts
            = (if db.userExists uid then db else
                { db with users := db.users
                    ++ [⟨uid, userNameOf email, userEmailOf email, none, now1⟩] }).thoughts
              ++ [t]) := by
  by_cases hu : db.userExists uid = true
  · have hsel : ((selectUsersById db uid).length == 0) = false := by
      rw [select_users_beq_zero, hu]
      rfl
    unfold thoughtsPostHandler
    rw [hsel]
    simp only [Bool.false_eq_true, if_false, hu, if_true]
    cases hins : insertThought db uid body.text.toSql body.sect.toSql
        (if body.folder.truthyNat then body.folder.toSql else none) now2 with
    | error e =>
      refine ⟨rfl, hu, ?_⟩
      intro habs
      simp at habs
    | ok pair =>
      obtain ⟨row, db2⟩ := pair
      obtain ⟨husers, _, hths, howner⟩ :=
        insertThought_ok_shape db uid _ _ _ now2 row db2 hins
      refine ⟨husers, ?_, fun _ => ⟨row, howner, hths⟩⟩
      rw [DB.userExists, husers]
      exact hu
  · have hu' : db.userExists uid = false := by
      simpa using hu
    have hsel : ((selectUsersById db uid).length == 0) = true := by
      rw [select_users_beq_zero, hu']
      rfl
    unfold thoughtsPostHandler
    rw [hsel, insertUser_of_not_exists db uid _ _ none now1 hu']
    simp only [if_true, hu', Bool.false_eq_true, if_false]
    set db1 : DB :=
      { db with users := db.users ++ [⟨uid, userNameOf email, userEmailOf email, none, now1⟩] }
      with hdb1
    have hu1 : db1.userExists uid = true := by
      rw [hdb1]
      simp [DB.userExists, List.any_append]
    cases hins : insertThought db1 uid body.text.toSql body.sect.toSql
        (if body.folder.truthyNat then body.folder.toSql else none) now2 with
    | error e =>
      refine ⟨rfl, hu1, ?_⟩
      intro habs
      simp at habs
    | ok pair =>
      obtain ⟨row, db2⟩ := pair
      obtain ⟨husers, _, hths, howner⟩ :=
        insertThought_ok_shape db1 uid _ _ _ now2 row db2 hins
      refine ⟨by rw [husers], ?_, fun _ => ⟨row, howner, hths⟩⟩
      rw [DB.userExists, husers]
      exact hu1

/-- The database after `u1` has created one thought on the fresh store
(used by the C3 witness). -/
def c3Db1 : DB :=
  (thoughtsPostHandler DB.empty "u1" (some "ann@ex.com")
    ⟨.undef, .val "buy milk", .val "todo", .undef, .undef⟩ "T1" "T2").2.2

/-- C3 witness: a first creation by the fresh identity `u1` provisions the
user row `ann` (from `ann@ex.com`), and a second creation by `u1` on the
resulting database adds no user row. -/
theorem thought_create_provisions_user_once_witness :
    c3Db1.users = [⟨"u1", "ann", some "ann@ex.com", none, "T1"⟩]
    ∧ ((thoughtsPostHandler c3Db1 "u1" (some "ann@ex.com")
        ⟨.undef, .val "again", .val "todo", .undef, .undef⟩ "T3" "T4").2.2).users
        = c3Db1.users := by
  constructor
  · have h := (thought_create_provisions_user_once DB.empty "u1" (some "ann@ex.com")
      ⟨.undef, .val "buy milk", .val "todo", .undef, .undef⟩ "T1" "T2").1
    show ((thoughtsPostHandler DB.empty "u1" (some "ann@ex.com")
      ⟨.undef, .val "buy milk", .val "todo", .undef, .undef⟩ "T1" "T2").2.2).users = _
    rw [h]
    decide
  · have h := (thought_create_provisions_user_once c3Db1 "u1" (some "ann@ex.com")
      ⟨.undef, .val "again", .val "todo", .undef, .undef⟩ "T3" "T4").1
    rw [h]
    have hx : c3Db1.userExists "u1" = true := by decide
    rw [hx]
    simp

/-- C4: a thought update without a (truthy) id is answered 400 before any
store operation; with an id, a no-match yields 404 with the database
unchanged, and otherwise the thoughts table is rewritten by the single
(id, owner)-scoped coalescing update — each field replaced only when its
parameter was supplied — so a section-only update keeps text and folder
on every row the coalescing rewrite touches. -/
theorem thought_update_coalesces (db : DB) (uid : String) (body : Body) :
    (JField.truthyNat body.id = false →
      thoughtsPutHandler db uid body = (400, Resp.errorMsg "Missing thought ID", db))
    ∧ (∀ i, body.id = JField.val i → (i == 0) = false →
        (db.thoughts.all (fun r => !(thoughtMatches i uid r)) = true →
          thoughtsPutHandler db uid body
            = (404, Resp.errorMsg "Thought not found or unauthorized", db))
        ∧ (fkBadThoughtUpdate db body.folder.toSql i uid = false →
          ((thoughtsPutHandler db uid body).2.2).thoughts
            = db.thoughts.map (fun r => if thoughtMatches i uid r
                then coalesceThought body.text.toSql body.sect.toSql body.folder.toSql r
                else r)))
    ∧ (∀ (s : String) (r : ThoughtRow),
        (coalesceThought none (some s) none r).text = r.text
        ∧ (coalesceThought none (some s) none r).sect = s
        ∧ (coalesceThought none (some s) none r).folder = r.folder) := by
  refine ⟨?_, ?_, fun s r => ⟨rfl, rfl, rfl⟩⟩
  · intro hfalsy
    cases hbid : body.id with
    | undef => unfold thoughtsPutHandler; rw [hbid]
    | null => unfold thoughtsPutHandler; rw [hbid]
    | val i =>
      rw [hbid] at hfalsy
      have hz : (i == 0) = true := by
        have : (i != 0) = false := hfalsy
        simpa using this
      unfold thoughtsPutHandler
      rw [hbid]
      simp only [hz, if_true]
  · intro i hid hi
    refine ⟨?_, ?_⟩
    · intro hall
      refine thoughtsPut_of_no_match db uid i body hid hi ?_
      intro r hr
      have := List.all_eq_true.mp hall r hr
      simpa using this
    · intro hfk
      unfold thoughtsPutHandler
      rw [hid]
      simp only [hi, Bool.false_eq_true, if_false]
      unfold updateThought
      rw [hfk]
      simp only [Bool.false_eq_true, if_false]
      cases hrows : (db.thoughts.filter (thoughtMatches i uid)).map
          (coalesceThought body.text.toSql body.sect.toSql body.folder.toSql) with
      | nil => rfl
      | cons r rest => rfl

/-- C4 witness: updating only the section of `A`'s thought 1 changes its
section to `urgent` and keeps text and folder; an id-less update is a 400
with the database unchanged. -/
theorem thought_update_coalesces_witness :
    ((thoughtsPutHandler wDbA "A" ⟨.val 1, .undef, .val "urgent", .undef, .undef⟩).2.2).thoughts
      = [⟨1, "A", "note", "urgent", none, "T0"⟩]
    ∧ thoughtsPutHandler wDbA "A" ⟨.undef, .undef, .undef, .undef, .undef⟩
      = (400, Resp.errorMsg "Missing thought ID", wDbA) := by
  have h := thought_update_coalesces wDbA "A" ⟨.val 1, .undef, .val "urgent", .undef, .undef⟩
  have h2 := thought_update_coalesces wDbA "A" ⟨.undef, .undef, .undef, .undef, .undef⟩
  refine ⟨?_, h2.1 rfl⟩
  have hm := (h.2.1 1 rfl rfl).2 rfl
  rw [hm]
  decide

/-- C5: when the (id, owner)-scoped folder delete matches, the request
succeeds with `deleted: true`, the thoughts table becomes exactly the old
table with every reference to the folder cleared — in particular all N of
the owner's referencing thoughts end detached — and the folder is absent
from the owner's subsequent folder list. -/
theorem folder_delete_detaches_then_deletes (db : DB) (uid : String) (i : Nat)
    (body : Body) (hid : body.id = JField.val i) (hi : (i == 0) = false)
    (hmatch : db.folders.any (folderMatches i uid) = true) :
    (foldersDeleteHandler db uid body).1 = 200
    ∧ (foldersDeleteHandler db uid body).2.1 = Resp.deletedTrue
    ∧ ((foldersDeleteHandler db uid body).2.2).thoughts
        = db.thoughts.map (fun t =>
            if t.folder == some i then { t with folder := none } else t)
    ∧ (∀ t ∈ ((foldersDeleteHandler db uid body).2.2).thoughts, t.folder ≠ some i)
    ∧ (∀ f ∈ selectFoldersByUser ((foldersDeleteHandler db uid body).2.2) uid, f.id ≠ i) := by
  have hstep : foldersDeleteHandler db uid body
      = (200, Resp.deletedTrue,
         { db with
           folders := db.folders.filter (fun f => !(folderMatches i uid f))
           thoughts := (db.thoughts.map (fun t =>
               if t.folder == some i && t.userId == uid then { t with folder := none } else t)).map
             (fun t => if t.folder == some i then { t with folder := none } else t) }) := by
    unfold foldersDeleteHandler detachThoughts deleteFolder
    rw [hid]
    simp only [hi, Bool.false_eq_true, if_false]
    cases hrows : db.folders.filter (folderMatches i uid) with
    | nil => exact absurd hrows (filter_ne_nil_of_any _ _ hmatch)
    | cons f fs => simp [hrows]
  have hcomp : (db.thoughts.map (fun t =>
        if t.folder == some i && t.userId == uid then { t with folder := none } else t)).map
        (fun t => if t.folder == some i then { t with folder := none } else t)
      = db.thoughts.map (fun t =>
          if t.folder == some i then { t with folder := none } else t) := by
    rw [List.map_map]
    apply map_congr_fn
    intro t ht
    by_cases hf : (t.folder == some i) = true
    · by_cases hu : (t.userId == uid) = true
      · simp [Function.comp, hf, hu]
      · simp [Function.comp, hf, hu]
    · simp [Function.comp, hf]
  have hclear : ∀ t ∈ db.thoughts.map (fun t =>
      if t.folder == some i then { t with folder := none } else t), t.folder ≠ some i := by
    intro t' ht'
    obtain ⟨t, ht, rfl⟩ := List.mem_map.mp ht'
    by_cases hf : (t.folder == some i) = true
    · simp [hf]
    · have hne : t.folder ≠ some i := by
        intro hc
        exact hf (by simp [hc])
      simp [hf, hne]
  rw [hstep]
  refine ⟨rfl, rfl, hcomp, ?_, ?_⟩
  · intro t ht
    rw [hcomp] at ht
    exact hclear t ht
  · intro f hf
    have h1 := List.mem_filter.mp hf
    have h2 := List.mem_filter.mp h1.1
    intro hc
    have hmt : folderMatches i uid f = true := by
      unfold folderMatches
      rw [hc]
      simp only [beq_self_eq_true, Bool.true_and]
      exact h1.2
    rw [hmt] at h2
    simp at h2

/-- The C5 witness store: `A` owns folder 1 and two thoughts that both
reference it. -/
def c5Db : DB :=
  { users := [⟨"A", "a", none, none, "T0"⟩]
    folders := [⟨1, "A", "work", "T0"⟩]
    thoughts := [⟨1, "A", "n1", "s", some 1, "T0"⟩, ⟨2, "A", "n2", "s", some 1, "T0"⟩]
    thoughtUpdates := []
    nextFolderId := 2
    nextThoughtId := 3 }

/-- C5 witness: `A` deleting folder 1, referenced by both of `A`'s
thoughts, gets 200, both thoughts end detached, and the folder list of
`A` afterwards is empty. -/
theorem folder_delete_detaches_then_deletes_witness :
    (foldersDeleteHandler c5Db "A" wBodyId1).1 = 200
    ∧ ((foldersDeleteHandler c5Db "A" wBodyId1).2.2).thoughts
        = [⟨1, "A", "n1", "s", none, "T0"⟩, ⟨2, "A", "n2", "s", none, "T0"⟩]
    ∧ selectFoldersByUser ((foldersDeleteHandler c5Db "A" wBodyId1).2.2) "A" = [] := by
  have h := folder_delete_detaches_then_deletes c5Db "A" 1 wBodyId1 rfl rfl (by decide)
  refine ⟨h.1, ?_, ?_⟩
  · rw [h.2.2.1]
    decide
  · decide

/-- The store reached from empty by: `B` creates a thought (provisioning
user `B`), `B` creates folder `work` (id 1), then `A` creates a thought
referencing folder 1 — the creation handler accepts any existing folder
id, with no ownership check, so this state is reachable through the API. -/
def c6Db : DB :=
  let r1 := thoughtsPostHandler DB.empty "B" none
    ⟨.undef, .val "note", .val "todo", .undef, .undef⟩ "T1" "T2"
  let r2 := foldersPostHandler r1.2.2 "B" ⟨.undef, .undef, .undef, .undef, .val "work"⟩ "T3"
  let r3 := thoughtsPostHandler r2.2.2 "A" none
    ⟨.undef, .val "idea", .val "todo", .val 1, .undef⟩ "T4" "T5"
  r3.2.2

/-- C6 counterexample: in the API-reachable store `c6Db`, `A` deleting
folder 1 (which belongs to `B` but is referenced by `A`'s thought) gets a
not-found outcome, yet the thoughts table changed: the detach step
cleared `A`'s reference.  A not-found folder deletion does not always
leave every thought row unchanged. -/
theorem folder_delete_notfound_changed_a_thought :
    (foldersDeleteHandler c6Db "A" ⟨.val 1, .undef, .undef, .undef, .undef⟩).1 = 404
    ∧ ((foldersDeleteHandler c6Db "A" ⟨.val 1, .undef, .undef, .undef, .undef⟩).2.2).thoughts
        ≠ c6Db.thoughts := by
  decide

/-- C6 amended: when a folder delete answers not-found, the detach step
has still run, clearing folder references on exactly the caller's
thoughts naming that folder id; whenever the caller owns no thought
referencing the id — in particular whenever thoughts reference only
folders of their own owner — the detach affects zero rows and every
thought row is unchanged. -/
theorem folder_delete_notfound_detach_scope (db : DB) (uid : String) (i : Nat)
    (body : Body) (hid : body.id = JField.val i) (hi : (i == 0) = false)
    (h404 : (foldersDeleteHandler db uid body).1 = 404) :
    ((foldersDeleteHandler db uid body).2.2).thoughts
      = db.thoughts.map (fun t =>
          if t.folder == some i && t.userId == uid then { t with folder := none } else t)
    ∧ (db.thoughts.all (fun t => !(t.folder == some i && t.userId == uid)) = true →
        ((foldersDeleteHandler db uid body).2.2).thoughts = db.thoughts) := by
  cases hrows : db.folders.filter (folderMatches i uid) with
  | cons f fs =>
    exfalso
    have h200 : (foldersDeleteHandler db uid body).1 = 200 := by
      unfold foldersDeleteHandler detachThoughts deleteFolder
      rw [hid]
      simp only [hi, Bool.false_eq_true, if_false]
      simp [hrows]
    rw [h200] at h404
    simp at h404
  | nil =>
    have hstep : foldersDeleteHandler db uid body
        = (404, Resp.errorMsg "Folder not found or unauthorized",
           { db with
             folders := db.folders.filter (fun f => !(folderMatches i uid f))
             thoughts := db.thoughts.map (fun t =>
               if t.folder == some i && t.userId == uid then { t with folder := none }
               else t) }) := by
      unfold foldersDeleteHandler detachThoughts deleteFolder
      rw [hid]
      simp only [hi, Bool.false_eq_true, if_false]
      simp [hrows]
    rw [hstep]
    refine ⟨rfl, ?_⟩
    intro hall
    apply map_ite_eq_self
    intro t ht
    have h1 := List.all_eq_true.mp hall t ht
    cases hb : (t.folder == some i && t.userId == uid) with
    | false => rfl
    | true =>
      rw [hb] at h1
      simp at h1

/-- C6 amended witness: caller `B` deleting `A`'s folder 1 in a store
where no thought of `B` references it gets 404 with every thought row
unchanged. -/
theorem folder_delete_notfound_detach_scope_witness :
    ((foldersDeleteHandler wDbA "B" wBodyId1).2.2).thoughts = wDbA.thoughts := by
  have h := folder_delete_notfound_detach_scope wDbA "B" 1 wBodyId1 rfl rfl (by decide)
  exact h.2 (by decide)

/-- C7: folder creation without a (truthy) name is a 400 before any store
operation; with a name, a same-owner duplicate surfaces the store's
uniqueness violation and the handler answers 500 with no duplicate row
inserted, while the same name under another owner (no duplicate scoped to
that owner) succeeds with 201 and appends the owner-scoped row. -/
theorem folder_create_unique_per_owner (db : DB) (uid : String) (body : Body)
    (now : String) :
    (JField.truthyStr body.name = false →
      foldersPostHandler db uid body now = (400, Resp.errorMsg "Folder name is required", db))
    ∧ (∀ n, body.name = JField.val n → (n == "") = false →
        (db.userExists uid = true →
          db.folders.any (fun f => f.userId == uid && f.name == n) = true →
            insertFolder db uid n now = Except.error StoreError.uniqueViolation
            ∧ foldersPostHandler db uid body now
                = (500, Resp.errorMsg "Internal Server Error", db))
        ∧ (db.userExists uid = true →
          db.folders.any (fun f => f.userId == uid && f.name == n) = false →
            foldersPostHandler db uid body now
              = (201, Resp.folderOne ⟨db.nextFolderId, uid, n, now⟩,
                 { db with folders := db.folders ++ [⟨db.nextFolderId, uid, n, now⟩],
                           nextFolderId := db.nextFolderId + 1 }))) := by
  constructor
  · intro hfalsy
    unfold foldersPostHandler
    rw [hfalsy]
    rfl
  · intro n hn hne
    have hts : JField.truthyStr body.name = true := by
      rw [hn]
      show (n != "") = true
      simpa using hne
    constructor
    · intro huser hdup
      have hins : insertFolder db uid n now = Except.error StoreError.uniqueViolation := by
        unfold insertFolder
        rw [huser, hdup]
        rfl
      refine ⟨hins, ?_⟩
      unfold foldersPostHandler
      rw [hts, hn]
      simp only [Bool.not_true, Bool.false_eq_true, if_false, hins]
    · intro huser hnodup
      have hins : insertFolder db uid n now
          = .ok (⟨db.nextFolderId, uid, n, now⟩,
                 { db with folders := db.folders ++ [⟨db.nextFolderId, uid, n, now⟩],
                           nextFolderId := db.nextFolderId + 1 }) := by
        unfold insertFolder
        rw [huser, hnodup]
        rfl
      unfold foldersPostHandler
      rw [hts, hn]
      simp only [Bool.not_true, Bool.false_eq_true, if_false, hins]

/-- The C7 witness store: users `A` and `B`, and `A` already owns a folder
named `work`. -/
def c7Db : DB :=
  { users := [⟨"A", "a", none, none, "T0"⟩, ⟨"B", "b", none, none, "T0"⟩]
    folders := [⟨1, "A", "work", "T0"⟩]
    thoughts := []
    thoughtUpdates := []
    nextFolderId := 2
    nextThoughtId := 1 }

/-- The folder-create body naming `work`, used by the C7 witness. -/
def wBodyWork : Body := ⟨.undef, .undef, .undef, .undef, .val "work"⟩

/-- C7 witness: `A` creating `work` again gets 500 with the store
unchanged; `B` creating `work` succeeds with 201. -/
theorem folder_create_unique_per_owner_witness :
    foldersPostHandler c7Db "A" wBodyWork "T1"
      = (500, Resp.errorMsg "Internal Server Error", c7Db)
    ∧ (foldersPostHandler c7Db "B" wBodyWork "T1").1 = 201 := by
  have hA := folder_create_unique_per_owner c7Db "A" wBodyWork "T1"
  have hB := folder_create_unique_per_owner c7Db "B" wBodyWork "T1"
  refine ⟨((hA.2 "work" rfl rfl).1 (by decide) (by decide)).2, ?_⟩
  rw [(hB.2 "work" rfl rfl).2 (by decide) (by decide)]

/-- The thought update handler either leaves the thoughts table unchanged
or rewrites it by the (id, owner)-scoped coalescing map. -/
theorem thoughtsPut_thoughts_shape (db : DB) (uid : String) (body : Body) :
    ((thoughtsPutHandler db uid body).2.2).thoughts = db.thoughts
    ∨ ∃ i, ((thoughtsPutHandler db uid body).2.2).thoughts
        = db.thoughts.map (fun r => if thoughtMatches i uid r
            then coalesceThought body.text.toSql body.sect.toSql body.folder.toSql r
            else r) := by
  unfold thoughtsPutHandler
  cases hbid : body.id with
  | undef => exact Or.inl rfl
  | null => exact Or.inl rfl
  | val i =>
    by_cases hi : (i == 0) = true
    · simp only [hi, if_true]
      left
      trivial
    · have hi' : (i == 0) = false := by simpa using hi
      simp only [hi', Bool.false_eq_true, if_false]
      unfold updateThought
      by_cases hfk : fkBadThoughtUpdate db body.folder.toSql i uid = true
      · simp only [hfk, if_true]
        left
        trivial
      · have hfk' : fkBadThoughtUpdate db body.folder.toSql i uid = false := by
          simpa using hfk
        simp only [hfk', Bool.false_eq_true, if_false]
        refine Or.inr ⟨i, ?_⟩
        cases hrows : (db.thoughts.filter (thoughtMatches i uid)).map
            (coalesceThought body.text.toSql body.sect.toSql body.folder.toSql) with
        | nil => rfl
        | cons r rest => rfl

/-- C9: a thought update whose folder field is an explicit JSON null
leaves the folder column of every thought unchanged (COALESCE receives
SQL NULL, exactly as when the field is absent); moreover the coalescing
rewrite can never null a folder reference, so for every update input the
handler maps thoughts with a folder to thoughts that still have one —
clearing folder_id is not reachable through thought updates. -/
theorem null_folder_update_never_detaches (db : DB) (uid : String) (body : Body)
    (hnull : body.folder = JField.null) :
    ((thoughtsPutHandler db uid body).2.2).thoughts.map (fun t => t.folder)
      = db.thoughts.map (fun t => t.folder)
    ∧ (∀ (t s : Option String) (f : Option Nat) (r : ThoughtRow),
        r.folder ≠ none → (coalesceThought t s f r).folder ≠ none)
    ∧ (∀ body2 : Body, List.Forall₂ (fun a b => a.folder ≠ none → b.folder ≠ none)
        db.thoughts ((thoughtsPutHandler db uid body2).2.2).thoughts) := by
  have hpreserve : ∀ (t s : Option String) (f : Option Nat) (r : ThoughtRow),
      r.folder ≠ none → (coalesceThought t s f r).folder ≠ none := by
    intro t s f r hr
    cases f with
    | some f' => simp [coalesceThought]
    | none => simpa [coalesceThought] using hr
  refine ⟨?_, hpreserve, ?_⟩
  · have hsql : body.folder.toSql = none := by
      rw [hnull]
      rfl
    rcases thoughtsPut_thoughts_shape db uid body with heq | ⟨i, heq⟩
    · rw [heq]
    · rw [heq, hsql, List.map_map]
      apply map_congr_fn
      intro r hr
      by_cases hm : thoughtMatches i uid r = true
      · simp [Function.comp, hm, coalesceThought]
      · have hm' : thoughtMatches i uid r = false := by simpa using hm
        simp [Function.comp, hm']
  · intro body2
    rcases thoughtsPut_thoughts_shape db uid body2 with heq | ⟨i, heq⟩
    · rw [heq]
      exact forall₂_refl_of _ _ (fun a _ ha => ha)
    · rw [heq]
      apply forall₂_map_self
      intro a _ ha
      by_cases hm : thoughtMatches i uid a = true
      · simp only [hm, if_true]
        exact hpreserve _ _ _ a ha
      · have hm' : thoughtMatches i uid a = false := by simpa using hm
        simp only [hm', Bool.false_eq_true, if_false]
        exact ha

/-- C9 witness: updating `A`'s thought 1 (which references folder 1) with
an explicit null folder leaves every folder reference unchanged. -/
theorem null_folder_update_never_detaches_witness :
    ((thoughtsPutHandler c5Db "A" ⟨.val 1, .val "new", .undef, .null, .undef⟩).2.2).thoughts.map
        (fun t => t.folder)
      = c5Db.thoughts.map (fun t => t.folder) :=
  (null_folder_update_never_detaches c5Db "A"
    ⟨.val 1, .val "new", .undef, .null, .undef⟩ rfl).1

/-- C10: thought creation is not atomic across its two inserts: for a
previously-unseen identity whose request lacks `text` (binding SQL NULL
into a NOT NULL column), the handler answers 500 — yet the user row
provisioned by the first insert persists, and no thought row is added. -/
theorem thought_create_not_atomic (db : DB) (uid : String) (email : Option String)
    (body : Body) (now1 now2 : String)
    (hnew : db.userExists uid = false) (htext : body.text.toSql = none) :
    thoughtsPostHandler db uid email body now1 now2
      = (500, Resp.errorMsg "Internal Server Error",
         { db with users := db.users
             ++ [⟨uid, userNameOf email, userEmailOf email, none, now1⟩] }) := by
  have hsel : ((selectUsersById db uid).length == 0) = true := by
    rw [select_users_beq_zero, hnew]
    rfl
  unfold thoughtsPostHandler
  rw [hsel, insertUser_of_not_exists db uid _ _ none now1 hnew]
  simp only [if_true]
  rw [htext]
  rfl

/-- C10 witness: a text-less creation by the fresh identity `u9` fails
with 500 but leaves behind the provisioned `anonymous` user row. -/
theorem thought_create_not_atomic_witness :
    thoughtsPostHandler DB.empty "u9" none
      ⟨.undef, .undef, .val "todo", .undef, .undef⟩ "T1" "T2"
      = (500, Resp.errorMsg "Internal Server Error",
         { DB.empty with users := [⟨"u9", "anonymous", none, none, "T1"⟩] }) := by
  have h := thought_create_not_atomic DB.empty "u9" none
    ⟨.undef, .undef, .val "todo", .undef, .undef⟩ "T1" "T2" rfl rfl
  simpa using h

end ThoughtsServer
